/-
Verification of the zhoushan-radar-system fusion core.

This file gives a shallow embedding of the target-fusion engine
(`src/fusion.py`, class `TargetFusion`), the data model (`src/models.py`),
the Kalman-style estimators (`src/kalman_filter.py`,
`src/advanced_tracker.py`) and the configuration validator
(`src/config_validator.py`), together with theorems settling the frozen
claims about the natural-language specification of that code.

Modelling conventions:
* Python dicts (which preserve insertion order) become association lists
  `List (String × V)` with an order-preserving `upsert`.
* Python floats become exact rationals `ℚ`.
* `datetime.now()` becomes an explicit `now : ℚ` argument to each
  operation; a `FusedTarget`'s `timestamp` field stores the `now` of the
  operation that created it.
* The two geometric helpers `_haversine_distance` and `_radar_to_geo`
  compute fixed real-valued trigonometric expressions (sin/cos/atan2),
  which have no exact rational counterpart.  The fusion logic consumes
  only the numeric values they return, so the embedding threads them
  through as an explicit oracle of type `Geo`.  Theorems quantified over
  `Geo` in particular cover the concrete functions of the source;
  concrete instantiations of `Geo` used in counterexamples realise
  distance configurations that the source's haversine formula also
  realises (e.g. points separated along a single meridian, where the
  haversine distance is exactly linear in the latitude difference).
-/
import Mathlib

namespace ZhoushanRadar

/-! ## Ordered association lists, modelling Python dicts -/

/-- Modelled after Python dict assignment `d[k] = v`: an existing key keeps
its position and gets the new value, a fresh key is appended at the end. -/
def upsert (k : String) (v : V) : List (String × V) → List (String × V)
  | [] => [(k, v)]
  | (k', v') :: rest => if k' = k then (k, v) :: rest else (k', v') :: upsert k v rest

/-- Membership in the keys of a dict, `k in d`. -/
def hasKey (k : String) (l : List (String × V)) : Prop := k ∈ l.map Prod.fst

instance (k : String) (l : List (String × V)) : Decidable (hasKey k l) := by
  unfold hasKey; infer_instance

/-! ## Geometry oracle -/

/-- Numeric oracle for the two trigonometric helpers of `TargetFusion`.
`haversine_distance lat1 lon1 lat2 lon2` stands for
`TargetFusion._haversine_distance` (great-circle distance in metres) and
`radar_to_geo distance_nm bearing_deg ref_lat ref_lon` stands for
`TargetFusion._radar_to_geo` (polar → geographic, returning `(lat, lon)`).
The fusion logic only compares and stores the returned numbers, so it is
embedded parametrically in this oracle. -/
structure Geo where
  haversine_distance : ℚ → ℚ → ℚ → ℚ → ℚ
  radar_to_geo : ℚ → ℚ → ℚ → ℚ → ℚ × ℚ

/-! ## Data model (`src/models.py`) -/

/-- Radar contact record (`models.RadarTarget`); fields the fusion engine
reads.  `timestamp` is the capture time. -/
structure RadarTarget where
  target_id : String
  distance_nm : ℚ
  bearing_deg : ℚ
  speed_knots : ℚ
  course_deg : ℚ
  timestamp : ℚ := 0
  deriving DecidableEq, Repr

/-- AIS contact record (`models.AISTarget`); fields the fusion engine
reads. -/
structure AISTarget where
  mmsi : String
  lat : ℚ := 0
  lon : ℚ := 0
  speed_knots : ℚ := 0
  course_deg : ℚ := 0
  heading_deg : ℤ := 0
  timestamp : ℚ := 0
  deriving DecidableEq, Repr

/-- One entry of `FusedTarget.history` (the dict appended by
`FusedTarget.update`). -/
structure HistEntry where
  lat : ℚ
  lon : ℚ
  speed : ℚ
  timestamp : ℚ
  deriving DecidableEq, Repr

/-- Fused track record (`models.FusedTarget`), with the dataclass default
values of the source. -/
structure FusedTarget where
  fused_id : String
  radar_target : Option RadarTarget := none
  ais_target : Option AISTarget := none
  source_type : String := "radar"
  lat : ℚ := 0
  lon : ℚ := 0
  speed_knots : ℚ := 0
  course_deg : ℚ := 0
  heading_deg : ℤ := 0
  confidence : ℚ := 1
  status : String := "tracking"
  timestamp : ℚ := 0
  history : List HistEntry := []
  deriving DecidableEq, Repr

/-- Python's truthiness-based `a or b` on floats: `0.0` is falsy, so the
expression yields `b` exactly when `a = 0`. -/
def pyOr (a b : ℚ) : ℚ := if a = 0 then b else a

/-- First paragraph of `FusedTarget.update` (models.py 150-153): if a
radar contact is passed, take its reference, speed and course. -/
def FusedTarget.applyRadar (t : FusedTarget) (radar : Option RadarTarget) : FusedTarget :=
  match radar with
  | some r => { t with radar_target := some r, speed_knots := r.speed_knots,
                       course_deg := r.course_deg }
  | none => t

/-- Second paragraph of `FusedTarget.update` (models.py 155-162): if an
AIS contact is passed, take its reference and position, and its speed and
heading when they are positive. -/
def FusedTarget.applyAis (t : FusedTarget) (ais : Option AISTarget) : FusedTarget :=
  match ais with
  | some a =>
      let ta := { t with ais_target := some a, lat := a.lat, lon := a.lon }
      let tb := if a.speed_knots > 0 then { ta with speed_knots := a.speed_knots } else ta
      if a.heading_deg > 0 then { tb with heading_deg := a.heading_deg } else tb
  | none => t

/-- Third paragraph of `FusedTarget.update` (models.py 164-176): re-derive
the source classification and confidence from which contact references
are present. -/
def FusedTarget.classify (t : FusedTarget) : FusedTarget :=
  if t.radar_target.isSome ∧ t.ais_target.isSome then
    { t with source_type := "fused", confidence := 9/10 }
  else if t.ais_target.isSome then
    { t with source_type := "ais", confidence := 8/10 }
  else
    { t with source_type := "radar", confidence := 7/10 }

/-- Final paragraph of `FusedTarget.update` (models.py 178-190): stamp the
current time and append a history entry, keeping only the last 100. -/
def FusedTarget.stamp (t : FusedTarget) (now : ℚ) : FusedTarget :=
  let t4 := { t with timestamp := now }
  let hist := t4.history ++ [⟨t4.lat, t4.lon, t4.speed_knots, now⟩]
  { t4 with history := if hist.length > 100 then hist.drop (hist.length - 100) else hist }

/-- Embedding of `FusedTarget.update` (models.py 148-190), as the
composition of its four paragraphs: refresh the radar reference, refresh
the AIS reference, re-derive classification and confidence, stamp time
and history. -/
def FusedTarget.update (t : FusedTarget) (radar : Option RadarTarget)
    (ais : Option AISTarget) (now : ℚ) : FusedTarget :=
  (((t.applyRadar radar).applyAis ais).classify).stamp now

/-! ## Fusion engine state (`src/fusion.py`, class `TargetFusion`) -/

/-- Mutable state of a `TargetFusion` instance.  `radar_origin` is stored
as `(lon, lat)` exactly as in the source. -/
structure FusionState where
  association_distance : ℚ
  max_age : ℚ
  radar_targets : List (String × RadarTarget)
  ais_targets : List (String × AISTarget)
  fused_targets : List (String × FusedTarget)
  matched_ais : List String
  radar_origin : ℚ × ℚ
  deriving DecidableEq, Repr

/-- Python `set.add`: insert the element if it is not already present. -/
def addMatched (m : String) (l : List String) : List String :=
  if m ∈ l then l else l ++ [m]

/-- State produced by `TargetFusion.__init__`: empty pools, empty matched
set, origin `(0.0, 0.0)`; the association distance and max age come from
`config.fusion_config` (defaults 100 and 60). -/
def initState (association_distance max_age : ℚ) : FusionState :=
  { association_distance := association_distance
    max_age := max_age
    radar_targets := []
    ais_targets := []
    fused_targets := []
    matched_ais := []
    radar_origin := (0, 0) }

/-- Loop body of `TargetFusion._find_matching_ais`: scan the AIS pool in
insertion order, `continue` past already-matched MMSIs, and return the
first candidate whose distance is strictly below the gate. -/
def findMatchingAISGo (geo : Geo) (matched : List String) (gate lat lon : ℚ) :
    List AISTarget → Option AISTarget
  | [] => none
  | ais :: rest =>
      if ais.mmsi ∈ matched then findMatchingAISGo geo matched gate lat lon rest
      else if geo.haversine_distance lat lon ais.lat ais.lon < gate then some ais
      else findMatchingAISGo geo matched gate lat lon rest

/-- Embedding of `TargetFusion._find_matching_ais` (fusion.py 185-194). -/
def findMatchingAIS (geo : Geo) (s : FusionState) (lat lon : ℚ) : Option AISTarget :=
  findMatchingAISGo geo s.matched_ais s.association_distance lat lon
    (s.ais_targets.map Prod.snd)

/-- Loop body of `TargetFusion._find_matching_radar`: scan the radar pool
in insertion order, convert each contact to geographic coordinates, and
return the first one whose distance is strictly below the gate.  There is
no matched-set exclusion on the radar side. -/
def findMatchingRadarGo (geo : Geo) (origin : ℚ × ℚ) (gate lat lon : ℚ) :
    List RadarTarget → Option RadarTarget
  | [] => none
  | radar :: rest =>
      let rpos := geo.radar_to_geo radar.distance_nm radar.bearing_deg origin.2 origin.1
      if geo.haversine_distance lat lon rpos.1 rpos.2 < gate then some radar
      else findMatchingRadarGo geo origin gate lat lon rest

/-- Embedding of `TargetFusion._find_matching_radar` (fusion.py 196-209). -/
def findMatchingRadar (geo : Geo) (s : FusionState) (lat lon : ℚ) : Option RadarTarget :=
  findMatchingRadarGo geo s.radar_origin s.association_distance lat lon
    (s.radar_targets.map Prod.snd)

/-- Embedding of `TargetFusion._fuse_radar_target` (fusion.py 95-148):
convert the radar contact to geographic coordinates, search the AIS pool;
on a match mark the MMSI matched and store a `fused` track `F<mmsi>` with
confidence 0.9, otherwise store a radar-only track `R<id>` with
confidence 0.7. -/
def fuseRadarTarget (geo : Geo) (now : ℚ) (s : FusionState) (radar_target : RadarTarget) :
    FusionState :=
  let pos := geo.radar_to_geo radar_target.distance_nm radar_target.bearing_deg
      s.radar_origin.2 s.radar_origin.1
  match findMatchingAIS geo s pos.1 pos.2 with
  | some matched =>
      let fused_id := "F" ++ matched.mmsi
      let fused : FusedTarget :=
        { fused_id := fused_id
          radar_target := some radar_target
          ais_target := some matched
          source_type := "fused"
          lat := pos.1
          lon := pos.2
          speed_knots := pyOr matched.speed_knots radar_target.speed_knots
          course_deg := pyOr matched.course_deg radar_target.course_deg
          confidence := 9/10
          timestamp := now }
      { s with matched_ais := addMatched matched.mmsi s.matched_ais
               fused_targets := upsert fused_id fused s.fused_targets }
  | none =>
      let fused_id := "R" ++ radar_target.target_id
      let fused : FusedTarget :=
        { fused_id := fused_id
          radar_target := some radar_target
          source_type := "radar"
          lat := pos.1
          lon := pos.2
          speed_knots := radar_target.speed_knots
          course_deg := radar_target.course_deg
          confidence := 7/10
          timestamp := now }
      { s with fused_targets := upsert fused_id fused s.fused_targets }

/-- Embedding of `TargetFusion.add_radar_target` (fusion.py 50-53). -/
def addRadarTarget (geo : Geo) (now : ℚ) (s : FusionState) (target : RadarTarget) :
    FusionState :=
  fuseRadarTarget geo now { s with radar_targets := upsert target.target_id target s.radar_targets }
    target

/-- Embedding of `TargetFusion._fuse_ais_only` (fusion.py 150-183): if a
matching radar contact exists the call is a no-op (the radar path already
handled it), otherwise store an AIS-only track `A<mmsi>` with confidence
0.8. -/
def fuseAisOnly (geo : Geo) (now : ℚ) (s : FusionState) (ais_target : AISTarget) :
    FusionState :=
  match findMatchingRadar geo s ais_target.lat ais_target.lon with
  | some _ => s
  | none =>
      let fused_id := "A" ++ ais_target.mmsi
      let fused : FusedTarget :=
        { fused_id := fused_id
          ais_target := some ais_target
          source_type := "ais"
          lat := ais_target.lat
          lon := ais_target.lon
          speed_knots := ais_target.speed_knots
          course_deg := ais_target.course_deg
          heading_deg := ais_target.heading_deg
          confidence := 8/10
          timestamp := now }
      { s with fused_targets := upsert fused_id fused s.fused_targets }

/-- Embedding of `TargetFusion.add_ais_target` (fusion.py 55-93): store
the contact, search the radar pool; on a match mark the MMSI matched and
store a `fused` track `F<mmsi>` with confidence 0.9 (converting the
matched radar contact to geographic coordinates), otherwise fall through
to `_fuse_ais_only`. -/
def addAisTarget (geo : Geo) (now : ℚ) (s : FusionState) (target : AISTarget) :
    FusionState :=
  let s1 := { s with ais_targets := upsert target.mmsi target s.ais_targets }
  match findMatchingRadar geo s1 target.lat target.lon with
  | some matched_radar =>
      let pos := geo.radar_to_geo matched_radar.distance_nm matched_radar.bearing_deg
          s1.radar_origin.2 s1.radar_origin.1
      let fused_id := "F" ++ target.mmsi
      let fused : FusedTarget :=
        { fused_id := fused_id
          radar_target := some matched_radar
          ais_target := some target
          source_type := "fused"
          lat := pos.1
          lon := pos.2
          speed_knots := pyOr target.speed_knots matched_radar.speed_knots
          course_deg := pyOr target.course_deg matched_radar.course_deg
          confidence := 9/10
          timestamp := now }
      { s1 with matched_ais := addMatched target.mmsi s1.matched_ais
                fused_targets := upsert fused_id fused s1.fused_targets }
  | none => fuseAisOnly geo now s1 target

/-- Embedding of `TargetFusion.get_fused_targets` (fusion.py 240-251):
delete every track whose age `now - timestamp` strictly exceeds
`max_age`, then return the surviving tracks in insertion order.  Returns
the list together with the post-eviction state. -/
def getFusedTargets (now : ℚ) (s : FusionState) : List FusedTarget × FusionState :=
  let kept := s.fused_targets.filter (fun p => ¬ now - p.2.timestamp > s.max_age)
  (kept.map Prod.snd, { s with fused_targets := kept })

/-- Embedding of `TargetFusion.set_radar_origin` (fusion.py 46-48). -/
def setRadarOrigin (s : FusionState) (lon lat : ℚ) : FusionState :=
  { s with radar_origin := (lon, lat) }

/-! ## Operational steps and reachability -/

/-- One public operation of `TargetFusion`, as a step relation on
`FusionState` (each mutating operation, plus the read-and-evict
`get_fused_targets`). -/
inductive Step (geo : Geo) : FusionState → FusionState → Prop
  | addRadar (s : FusionState) (t : RadarTarget) (now : ℚ) :
      Step geo s (addRadarTarget geo now s t)
  | addAis (s : FusionState) (t : AISTarget) (now : ℚ) :
      Step geo s (addAisTarget geo now s t)
  | getFused (s : FusionState) (now : ℚ) :
      Step geo s (getFusedTargets now s).2
  | setOrigin (s : FusionState) (lon lat : ℚ) :
      Step geo s (setRadarOrigin s lon lat)

/-- Reflexive-transitive closure of `Step`: the states reachable from `s`
by any sequence of `TargetFusion` operations. -/
inductive Reachable (geo : Geo) : FusionState → FusionState → Prop
  | refl (s : FusionState) : Reachable geo s s
  | tail {s t u : FusionState} : Reachable geo s t → Step geo t u → Reachable geo s u

/-! ## Kalman filter (`src/kalman_filter.py`) -/

/-- Explicit inverse of a 2×2 matrix by the adjugate/determinant formula,
modelling `np.linalg.inv` on the 2×2 innovation covariance.  (NumPy
raises on a singular matrix; over `ℚ` a zero determinant instead yields
division by zero, i.e. zero entries — the difference is irrelevant to the
claims settled here, which never reach that branch with a singular
matrix.) -/
def inv2 (S : Matrix (Fin 2) (Fin 2) ℚ) : Matrix (Fin 2) (Fin 2) ℚ :=
  let d := S 0 0 * S 1 1 - S 0 1 * S 1 0
  !![S 1 1 / d, -(S 0 1) / d; -(S 1 0) / d, S 0 0 / d]

/-- State of a `KalmanFilter` instance: constructor parameters, the
derived matrices `F`, `H`, `Q`, `R`, the 4-vector state `[x, y, vx, vy]`,
the covariance `P`, and the `initialized` flag. -/
structure KalmanFilter where
  dt : ℚ
  process_noise : ℚ
  measurement_noise : ℚ
  state : Fin 4 → ℚ
  P : Matrix (Fin 4) (Fin 4) ℚ
  F : Matrix (Fin 4) (Fin 4) ℚ
  H : Matrix (Fin 2) (Fin 4) ℚ
  Q : Matrix (Fin 4) (Fin 4) ℚ
  R : Matrix (Fin 2) (Fin 2) ℚ
  initialized : Bool

/-- Embedding of `KalmanFilter.__init__` (kalman_filter.py 17-51): stores
the noise parameters unchecked, zero state, `P = 100·I`, the
constant-velocity transition matrix, the position-only measurement
matrix, `Q = process_noise·I`, `R = measurement_noise·I`, not yet
initialized. -/
def KalmanFilter.init (dt process_noise measurement_noise : ℚ) : KalmanFilter :=
  { dt := dt
    process_noise := process_noise
    measurement_noise := measurement_noise
    state := fun _ => 0
    P := (100 : ℚ) • (1 : Matrix (Fin 4) (Fin 4) ℚ)
    F := !![1, 0, dt, 0; 0, 1, 0, dt; 0, 0, 1, 0; 0, 0, 0, 1]
    H := !![1, 0, 0, 0; 0, 1, 0, 0]
    Q := process_noise • (1 : Matrix (Fin 4) (Fin 4) ℚ)
    R := measurement_noise • (1 : Matrix (Fin 2) (Fin 2) ℚ)
    initialized := false }

/-- Embedding of `KalmanFilter.initialize` (kalman_filter.py 53-60):
position `(x, y)`, zero velocity, `P = I`, mark initialized. -/
def KalmanFilter.initializeState (kf : KalmanFilter) (x y : ℚ) : KalmanFilter :=
  { kf with state := ![x, y, 0, 0]
            P := (1 : Matrix (Fin 4) (Fin 4) ℚ)
            initialized := true }

/-- Embedding of `KalmanFilter.predict` (kalman_filter.py 62-74): advance
the state by the motion model and inflate the covariance; return the
predicted position together with the mutated filter. -/
def KalmanFilter.predict (kf : KalmanFilter) : (ℚ × ℚ) × KalmanFilter :=
  let state' := kf.F.mulVec kf.state
  let P' := kf.F * kf.P * kf.F.transpose + kf.Q
  ((state' 0, state' 1), { kf with state := state', P := P' })

/-- Embedding of `KalmanFilter.update` (kalman_filter.py 76-109): on the
first call initialize with the raw measurement and return it unchanged;
otherwise perform the correction step with the 2×2 innovation-covariance
inverse and return the corrected position. -/
def KalmanFilter.update (kf : KalmanFilter) (x y : ℚ) : (ℚ × ℚ) × KalmanFilter :=
  if kf.initialized = false then
    ((x, y), kf.initializeState x y)
  else
    let z : Fin 2 → ℚ := ![x, y]
    let z_pred := kf.H.mulVec kf.state
    let yres := z - z_pred
    let S := kf.H * kf.P * kf.H.transpose + kf.R
    let K := kf.P * kf.H.transpose * inv2 S
    let state' := kf.state + K.mulVec yres
    let P' := ((1 : Matrix (Fin 4) (Fin 4) ℚ) - K * kf.H) * kf.P
    ((state' 0, state' 1), { kf with state := state', P := P' })

/-- Embedding of `KalmanFilter.predict_update` (kalman_filter.py
111-122): one predict step followed by one update step. -/
def KalmanFilter.predictUpdate (kf : KalmanFilter) (x y : ℚ) : (ℚ × ℚ) × KalmanFilter :=
  (kf.predict.2).update x y

/-! ## KFTracker (`src/advanced_tracker.py`) -/

/-- State of a `KFTracker` instance (advanced_tracker.py 18-39). -/
structure KFTracker where
  dt : ℚ
  F : Matrix (Fin 4) (Fin 4) ℚ
  H : Matrix (Fin 2) (Fin 4) ℚ
  Q : Matrix (Fin 4) (Fin 4) ℚ
  R : Matrix (Fin 2) (Fin 2) ℚ
  x : Fin 4 → ℚ
  P : Matrix (Fin 4) (Fin 4) ℚ
  init : Bool

/-- Embedding of `KFTracker.__init__` (advanced_tracker.py 21-39). -/
def KFTracker.mkTracker (dt q r : ℚ) : KFTracker :=
  { dt := dt
    F := !![1, 0, dt, 0; 0, 1, 0, dt; 0, 0, 1, 0; 0, 0, 0, 1]
    H := !![1, 0, 0, 0; 0, 1, 0, 0]
    Q := q • (1 : Matrix (Fin 4) (Fin 4) ℚ)
    R := r • (1 : Matrix (Fin 2) (Fin 2) ℚ)
    x := fun _ => 0
    P := (100 : ℚ) • (1 : Matrix (Fin 4) (Fin 4) ℚ)
    init := false }

/-- Embedding of `KFTracker.process` (advanced_tracker.py 41-61): on the
first call set the state to `[x, y, 0, 0]`, `P = I`, and return the raw
measurement; otherwise one predict + correct cycle. -/
def KFTracker.process (tr : KFTracker) (mx my : ℚ) : (ℚ × ℚ) × KFTracker :=
  if tr.init = false then
    ((mx, my), { tr with x := ![mx, my, 0, 0], P := (1 : Matrix (Fin 4) (Fin 4) ℚ),
                         init := true })
  else
    let xp := tr.F.mulVec tr.x
    let Pp := tr.F * tr.P * tr.F.transpose + tr.Q
    let z : Fin 2 → ℚ := ![mx, my]
    let y_res := z - tr.H.mulVec xp
    let S := tr.H * Pp * tr.H.transpose + tr.R
    let K := Pp * tr.H.transpose * inv2 S
    let x' := xp + K.mulVec y_res
    let P' := ((1 : Matrix (Fin 4) (Fin 4) ℚ) - K * tr.H) * Pp
    ((x' 0, x' 1), { tr with x := x', P := P', init := true })

/-! ## MultiTargetKalmanFilter (`src/kalman_filter.py` 140-182) -/

/-- Registry of per-identity `KalmanFilter` instances (the `filters`
dict). -/
structure MultiTargetKalmanFilter where
  filters : List (String × KalmanFilter)

/-- Dict lookup `d.get(k)` / `k in d` on an ordered association list. -/
def lookupKey (k : String) : List (String × V) → Option V
  | [] => none
  | (k', v) :: rest => if k' = k then some v else lookupKey k rest

/-- Embedding of `MultiTargetKalmanFilter.add_target` (kalman_filter.py
146-154): create a filter, initialize it at `(x, y)`, store it. -/
def MultiTargetKalmanFilter.addTarget (m : MultiTargetKalmanFilter) (target_id : String)
    (x y process_noise measurement_noise : ℚ) : MultiTargetKalmanFilter :=
  let kf := (KalmanFilter.init 1 process_noise measurement_noise).initializeState x y
  { filters := upsert target_id kf m.filters }

/-- Embedding of `MultiTargetKalmanFilter.update_target` (kalman_filter.py
156-164): lazily create on first sight, else one predict+update cycle. -/
def MultiTargetKalmanFilter.updateTarget (m : MultiTargetKalmanFilter) (target_id : String)
    (x y : ℚ) : MultiTargetKalmanFilter :=
  match lookupKey target_id m.filters with
  | none => m.addTarget target_id x y (1/10) 1
  | some kf => { filters := upsert target_id (kf.predictUpdate x y).2 m.filters }

/-- Embedding of `MultiTargetKalmanFilter.predict_target` (kalman_filter.py
166-170): absent identity yields `none` and leaves the registry
untouched; a known identity forwards to `predict`, whose mutation of the
filter is written back. -/
def MultiTargetKalmanFilter.predictTarget (m : MultiTargetKalmanFilter) (target_id : String) :
    Option (ℚ × ℚ) × MultiTargetKalmanFilter :=
  match lookupKey target_id m.filters with
  | none => (none, m)
  | some kf =>
      let r := kf.predict
      (some r.1, { filters := upsert target_id r.2 m.filters })

/-- Embedding of `MultiTargetKalmanFilter.remove_target` (kalman_filter.py
172-175): delete the entry if present, otherwise do nothing. -/
def MultiTargetKalmanFilter.removeTarget (m : MultiTargetKalmanFilter) (target_id : String) :
    MultiTargetKalmanFilter :=
  { filters := m.filters.filter (fun p => p.1 ≠ target_id) }

/-! ## Configuration validation (`src/config_validator.py`) -/

/-- Fusion section of the configuration as read by
`ConfigValidator._validate_fusion` and by the constructors: the tracker
algorithm name (default "KF"), the association gate distance and the
estimator noise parameters.  Only `tracker` is ever inspected by the
validator. -/
structure FusionCfg where
  tracker : String := "KF"
  association_distance_m : ℚ := 100
  max_age_seconds : ℚ := 60
  process_noise : ℚ := 1/10
  measurement_noise : ℚ := 1
  deriving DecidableEq, Repr

/-- Embedding of `ConfigValidator._validate_fusion` (config_validator.py
86-92), returning the `(errors, warnings)` it appends: it never appends
an error, and warns only when the tracker name is not one of
KF/EKF/UKF/PF.  No numeric field is inspected. -/
def validateFusion (cfg : FusionCfg) : List String × List String :=
  if cfg.tracker ∈ ["KF", "EKF", "UKF", "PF"] then ([], [])
  else ([], ["unknown tracker: " ++ cfg.tracker])

/-! ## Predicates used to state properties of the association scans -/

/-- Acceptance condition of the `_find_matching_ais` loop body: the
candidate's MMSI is not already matched and its distance to the query
point is strictly below the gate. -/
def aisAccept (geo : Geo) (matched : List String) (gate lat lon : ℚ) (a : AISTarget) : Prop :=
  a.mmsi ∉ matched ∧ geo.haversine_distance lat lon a.lat a.lon < gate

instance (geo : Geo) (matched : List String) (gate lat lon : ℚ) (a : AISTarget) :
    Decidable (aisAccept geo matched gate lat lon a) := by
  unfold aisAccept; infer_instance

/-- Acceptance condition of the `_find_matching_radar` loop body: the
geo-converted radar contact lies strictly within the gate of the query
point (no matched-set exclusion on this side). -/
def radarAccept (geo : Geo) (origin : ℚ × ℚ) (gate lat lon : ℚ) (r : RadarTarget) : Prop :=
  geo.haversine_distance lat lon
    (geo.radar_to_geo r.distance_nm r.bearing_deg origin.2 origin.1).1
    (geo.radar_to_geo r.distance_nm r.bearing_deg origin.2 origin.1).2 < gate

instance (geo : Geo) (origin : ℚ × ℚ) (gate lat lon : ℚ) (r : RadarTarget) :
    Decidable (radarAccept geo origin gate lat lon r) := by
  unfold radarAccept; infer_instance

/-- Shape of every track the fusion engine ever stores: the three
construction sites of `TargetFusion` produce exactly one of these three
field combinations, and the storage key is `F<mmsi>` / `A<mmsi>` /
`R<id>` accordingly. -/
def trackWF (k : String) (t : FusedTarget) : Prop :=
  (t.source_type = "fused" ∧ t.confidence = 9/10 ∧
     ∃ r a, t.radar_target = some r ∧ t.ais_target = some a ∧ k = "F" ++ a.mmsi) ∨
  (t.source_type = "ais" ∧ t.confidence = 8/10 ∧ t.radar_target = none ∧
     ∃ a, t.ais_target = some a ∧ k = "A" ++ a.mmsi) ∨
  (t.source_type = "radar" ∧ t.confidence = 7/10 ∧ t.ais_target = none ∧
     ∃ r, t.radar_target = some r ∧ k = "R" ++ r.target_id)

/-- Invariant on the live track map: keys are distinct (it models a dict)
and every stored track has one of the three construction shapes. -/
def tracksWF (l : List (String × FusedTarget)) : Prop :=
  (l.map Prod.fst).Nodup ∧ ∀ p ∈ l, trackWF p.1 p.2

/-! ## Concrete data for witnesses and counterexamples -/

/-- Concrete geometry oracle for witnesses and counterexamples: the
distance of two points is the larger of their latitudes, and every radar
contact converts to the reference point itself.  All concrete
configurations exercised below keep one endpoint at latitude 0 and the
other at latitude ℓ ≥ 0, where this oracle returns ℓ — the pattern of a
meridian configuration, along which the source's haversine distance is
exactly `R·|Δlat in radians|` (so candidates at scaled distances 10, 50
and exactly 100 from a common query point, with gate 100, are realisable
by the source functions), and `_radar_to_geo` maps a zero-range contact
to its reference point.  The oracle is written with comparisons only so
that concrete runs evaluate inside the kernel. -/
def geoEx : Geo :=
  { haversine_distance := fun lat1 _ lat2 _ => if lat1 < lat2 then lat2 else lat1
    radar_to_geo := fun _ _ ref_lat ref_lon => (ref_lat, ref_lon) }

/-- AIS candidate 50 distance units from the query point. -/
def aisFar : AISTarget := { mmsi := "200100001", lat := 50, lon := 0 }

/-- AIS candidate 10 distance units from the query point. -/
def aisNear : AISTarget := { mmsi := "200100002", lat := 10, lon := 0 }

/-- AIS candidate exactly at the default gate distance (100). -/
def aisGate : AISTarget := { mmsi := "200100003", lat := 100, lon := 0 }

/-- Pool with the farther in-gate candidate ahead of the nearer one, over
the default configuration (gate 100, max age 60). -/
def sPool : FusionState :=
  { initState 100 60 with
      ais_targets := [("200100001", aisFar), ("200100002", aisNear)] }

/-- Pool whose only candidate sits exactly at the gate distance. -/
def sGate : FusionState :=
  { initState 100 60 with ais_targets := [("200100003", aisGate)] }

/-- Radar contact used in the concrete fusion runs. -/
def radarEx : RadarTarget :=
  { target_id := "1", distance_nm := 0, bearing_deg := 90, speed_knots := 10, course_deg := 0 }

/-- AIS contact 10 distance units from `radarEx`'s converted position. -/
def aisEx : AISTarget :=
  { mmsi := "200100001", lat := 10, lon := 0, speed_knots := 8, course_deg := 5, heading_deg := 7 }

/-- Radar first, then the matching AIS contact. -/
def sRadarThenAis : FusionState :=
  addAisTarget geoEx 1 (addRadarTarget geoEx 0 (initState 100 60) radarEx) aisEx

/-- The matching AIS contact first, then the radar contact. -/
def sAisThenRadar : FusionState :=
  addRadarTarget geoEx 1 (addAisTarget geoEx 0 (initState 100 60) aisEx) radarEx

/-- State with one matched MMSI, for exercising persistence of the
matched set. -/
def sMatched : FusionState :=
  { sAisThenRadar with matched_ais := ["200100001"] }

/-- Fusion configuration with a negative gate distance and a zero
measurement-noise floor — invalid according to the specification. -/
def cfgBad : FusionCfg :=
  { tracker := "KF", association_distance_m := -5, max_age_seconds := 60,
    process_noise := 1/10, measurement_noise := 0 }

/-- The AIS-only track that `_fuse_ais_only` stores for `aisEx` at time 0. -/
def trackA : FusedTarget :=
  { fused_id := "A200100001", ais_target := some aisEx, source_type := "ais",
    lat := 10, lon := 0, speed_knots := 8, course_deg := 5, heading_deg := 7,
    confidence := 8/10, timestamp := 0 }

/-- The fused track that `_fuse_radar_target` stores at time 1 in the
run `sAisThenRadar`. -/
def trackF : FusedTarget :=
  { fused_id := "F200100001", radar_target := some radarEx, ais_target := some aisEx,
    source_type := "fused", lat := 0, lon := 0, speed_knots := 8, course_deg := 5,
    confidence := 9/10, timestamp := 1 }

/-- A radar-only track last updated at time 0, for the eviction witness. -/
def trackR : FusedTarget :=
  { fused_id := "R1", radar_target := some radarEx, timestamp := 0 }

/-- State holding one track aged 0, read at time 1 against max age 60. -/
def sEvict : FusionState :=
  { initState 100 60 with fused_targets := [("R1", trackR)] }

/-! ## Association-list lemmas -/

theorem mem_upsert {V : Type} {p : String × V} {k : String} {v : V} :
    ∀ {l : List (String × V)}, p ∈ upsert k v l → p = (k, v) ∨ p ∈ l := by
  intro l
  induction l with
  | nil => intro h; simp [upsert] at h; exact Or.inl h
  | cons q rest ih =>
      intro h
      rw [upsert] at h
      by_cases hk : q.1 = k
      · rw [if_pos hk] at h
        rcases List.mem_cons.mp h with h1 | h2
        · exact Or.inl h1
        · exact Or.inr (List.mem_cons_of_mem _ h2)
      · rw [if_neg hk] at h
        rcases List.mem_cons.mp h with h1 | h2
        · exact Or.inr (h1 ▸ List.mem_cons_self _ _)
        · rcases ih h2 with h3 | h4
          · exact Or.inl h3
          · exact Or.inr (List.mem_cons_of_mem _ h4)

theorem mem_keys_upsert {V : Type} {k' k : String} {v : V} :
    ∀ {l : List (String × V)},
      k' ∈ (upsert k v l).map Prod.fst ↔ k' = k ∨ k' ∈ l.map Prod.fst := by
  intro l
  induction l with
  | nil => simp [upsert]
  | cons q rest ih =>
      rw [upsert]
      by_cases hk : q.1 = k
      · rw [if_pos hk]
        simp only [List.map_cons, List.mem_cons]
        constructor
        · rintro (h | h)
          · exact Or.inl h
          · exact Or.inr (Or.inr h)
        · rintro (h | h | h)
          · exact Or.inl h
          · exact Or.inl (by rw [h, hk])
          · exact Or.inr h
      · rw [if_neg hk]
        simp only [List.map_cons, List.mem_cons, ih]
        tauto

theorem keys_upsert_superset {V : Type} {k' k : String} {v : V} {l : List (String × V)}
    (h : k' ∈ l.map Prod.fst) : k' ∈ (upsert k v l).map Prod.fst :=
  mem_keys_upsert.mpr (Or.inr h)

theorem nodup_keys_upsert {V : Type} {k : String} {v : V} :
    ∀ {l : List (String × V)},
      (l.map Prod.fst).Nodup → ((upsert k v l).map Prod.fst).Nodup := by
  intro l
  induction l with
  | nil => intro _; simp [upsert]
  | cons q rest ih =>
      intro h
      rw [List.map_cons, List.nodup_cons] at h
      rw [upsert]
      by_cases hk : q.1 = k
      · rw [if_pos hk]
        rw [List.map_cons, List.nodup_cons]
        exact ⟨by rw [← hk]; exact h.1, h.2⟩
      · rw [if_neg hk]
        rw [List.map_cons, List.nodup_cons]
        refine ⟨fun hmem => ?_, ih h.2⟩
        rcases mem_keys_upsert.mp hmem with h1 | h2
        · exact hk h1
        · exact h.1 h2

theorem eq_of_mem_of_nodup_keys {V : Type} :
    ∀ {l : List (String × V)}, (l.map Prod.fst).Nodup →
      ∀ {p q : String × V}, p ∈ l → q ∈ l → p.1 = q.1 → p = q := by
  intro l
  induction l with
  | nil => intro _ p q hp; exact absurd hp (List.not_mem_nil p)
  | cons r rest ih =>
      intro hnd p q hp hq hk
      rw [List.map_cons, List.nodup_cons] at hnd
      rcases List.mem_cons.mp hp with hp1 | hp2
      · rcases List.mem_cons.mp hq with hq1 | hq2
        · rw [hp1, hq1]
        · subst hp1
          rw [hk] at hnd
          exact absurd (List.mem_map_of_mem Prod.fst hq2) hnd.1
      · rcases List.mem_cons.mp hq with hq1 | hq2
        · subst hq1
          rw [← hk] at hnd
          exact absurd (List.mem_map_of_mem Prod.fst hp2) hnd.1
        · exact ih hnd.2 hp2 hq2 hk

/-! ## Characterization of the association scans -/

theorem findMatchingAISGo_eq_some_iff {geo : Geo} {matched : List String}
    {gate lat lon : ℚ} {a : AISTarget} :
    ∀ {pool : List AISTarget},
      findMatchingAISGo geo matched gate lat lon pool = some a ↔
        ∃ l1 l2, pool = l1 ++ a :: l2 ∧ aisAccept geo matched gate lat lon a ∧
          ∀ b ∈ l1, ¬ aisAccept geo matched gate lat lon b := by
  intro pool
  induction pool with
  | nil =>
      simp only [findMatchingAISGo]
      constructor
      · intro h; exact absurd h (by simp)
      · rintro ⟨l1, l2, hsplit, -, -⟩
        exact absurd hsplit (by simp)
  | cons c rest ih =>
      rw [findMatchingAISGo]
      by_cases hm : c.mmsi ∈ matched
      · rw [if_pos hm, ih]
        constructor
        · rintro ⟨l1, l2, hsplit, hacc, hall⟩
          refine ⟨c :: l1, l2, by rw [hsplit, List.cons_append], hacc, ?_⟩
          intro b hb
          rcases List.mem_cons.mp hb with hb1 | hb2
          · rw [hb1]; exact fun hc => hc.1 hm
          · exact hall b hb2
        · rintro ⟨l1, l2, hsplit, hacc, hall⟩
          cases l1 with
          | nil =>
              rw [List.nil_append] at hsplit
              injection hsplit with h1 h2
              exact absurd hm (h1 ▸ hacc.1)
          | cons d l1' =>
              rw [List.cons_append] at hsplit
              injection hsplit with h1 h2
              exact ⟨l1', l2, h2, hacc, fun b hb => hall b (List.mem_cons_of_mem _ hb)⟩
      · rw [if_neg hm]
        by_cases hd : geo.haversine_distance lat lon c.lat c.lon < gate
        · rw [if_pos hd]
          constructor
          · intro h
            injection h with h
            exact ⟨[], rest, by rw [h, List.nil_append], h ▸ ⟨hm, hd⟩, by simp⟩
          · rintro ⟨l1, l2, hsplit, hacc, hall⟩
            cases l1 with
            | nil =>
                rw [List.nil_append] at hsplit
                injection hsplit with h1 h2
                rw [h1]
            | cons d l1' =>
                rw [List.cons_append] at hsplit
                injection hsplit with h1 h2
                exact absurd (h1 ▸ ⟨hm, hd⟩)
                  (hall d (List.mem_cons_self d l1'))
        · rw [if_neg hd, ih]
          constructor
          · rintro ⟨l1, l2, hsplit, hacc, hall⟩
            refine ⟨c :: l1, l2, by rw [hsplit, List.cons_append], hacc, ?_⟩
            intro b hb
            rcases List.mem_cons.mp hb with hb1 | hb2
            · rw [hb1]; exact fun hc => hd hc.2
            · exact hall b hb2
          · rintro ⟨l1, l2, hsplit, hacc, hall⟩
            cases l1 with
            | nil =>
                rw [List.nil_append] at hsplit
                injection hsplit with h1 h2
                exact absurd (h1 ▸ hacc.2) hd
            | cons d l1' =>
                rw [List.cons_append] at hsplit
                injection hsplit with h1 h2
                exact ⟨l1', l2, h2, hacc, fun b hb => hall b (List.mem_cons_of_mem _ hb)⟩

theorem findMatchingAISGo_eq_none_iff {geo : Geo} {matched : List String}
    {gate lat lon : ℚ} :
    ∀ {pool : List AISTarget},
      findMatchingAISGo geo matched gate lat lon pool = none ↔
        ∀ a ∈ pool, ¬ aisAccept geo matched gate lat lon a := by
  intro pool
  induction pool with
  | nil => simp [findMatchingAISGo]
  | cons c rest ih =>
      rw [findMatchingAISGo]
      by_cases hm : c.mmsi ∈ matched
      · rw [if_pos hm, ih]
        constructor
        · intro h a ha
          rcases List.mem_cons.mp ha with h1 | h2
          · rw [h1]; exact fun hc => hc.1 hm
          · exact h a h2
        · intro h a ha; exact h a (List.mem_cons_of_mem _ ha)
      · rw [if_neg hm]
        by_cases hd : geo.haversine_distance lat lon c.lat c.lon < gate
        · rw [if_pos hd]
          constructor
          · intro h; exact absurd h (by simp)
          · intro h; exact absurd ⟨hm, hd⟩ (h c (List.mem_cons_self c rest))
        · rw [if_neg hd, ih]
          constructor
          · intro h a ha
            rcases List.mem_cons.mp ha with h1 | h2
            · rw [h1]; exact fun hc => hd hc.2
            · exact h a h2
          · intro h a ha; exact h a (List.mem_cons_of_mem _ ha)

theorem findMatchingRadarGo_eq_some_iff {geo : Geo} {origin : ℚ × ℚ}
    {gate lat lon : ℚ} {r : RadarTarget} :
    ∀ {pool : List RadarTarget},
      findMatchingRadarGo geo origin gate lat lon pool = some r ↔
        ∃ l1 l2, pool = l1 ++ r :: l2 ∧ radarAccept geo origin gate lat lon r ∧
          ∀ b ∈ l1, ¬ radarAccept geo origin gate lat lon b := by
  intro pool
  induction pool with
  | nil =>
      simp only [findMatchingRadarGo]
      constructor
      · intro h; exact absurd h (by simp)
      · rintro ⟨l1, l2, hsplit, -, -⟩
        exact absurd hsplit (by simp)
  | cons c rest ih =>
      rw [findMatchingRadarGo]
      by_cases hd0 : geo.haversine_distance lat lon
          (geo.radar_to_geo c.distance_nm c.bearing_deg origin.2 origin.1).1
          (geo.radar_to_geo c.distance_nm c.bearing_deg origin.2 origin.1).2 < gate
      · have hd : radarAccept geo origin gate lat lon c := hd0
        rw [if_pos hd0]
        constructor
        · intro h
          injection h with h
          exact ⟨[], rest, by rw [h, List.nil_append], h ▸ hd, by simp⟩
        · rintro ⟨l1, l2, hsplit, hacc, hall⟩
          cases l1 with
          | nil =>
              rw [List.nil_append] at hsplit
              injection hsplit with h1 h2
              rw [h1]
          | cons d l1' =>
              rw [List.cons_append] at hsplit
              injection hsplit with h1 h2
              exact absurd (h1 ▸ hd) (hall d (List.mem_cons_self d l1'))
      · have hd : ¬ radarAccept geo origin gate lat lon c := hd0
        rw [if_neg hd0, ih]
        constructor
        · rintro ⟨l1, l2, hsplit, hacc, hall⟩
          refine ⟨c :: l1, l2, by rw [hsplit, List.cons_append], hacc, ?_⟩
          intro b hb
          rcases List.mem_cons.mp hb with hb1 | hb2
          · rw [hb1]; exact hd
          · exact hall b hb2
        · rintro ⟨l1, l2, hsplit, hacc, hall⟩
          cases l1 with
          | nil =>
              rw [List.nil_append] at hsplit
              injection hsplit with h1 h2
              exact absurd (h1 ▸ hacc) hd
          | cons d l1' =>
              rw [List.cons_append] at hsplit
              injection hsplit with h1 h2
              exact ⟨l1', l2, h2, hacc, fun b hb => hall b (List.mem_cons_of_mem _ hb)⟩

theorem findMatchingRadarGo_eq_none_iff {geo : Geo} {origin : ℚ × ℚ}
    {gate lat lon : ℚ} :
    ∀ {pool : List RadarTarget},
      findMatchingRadarGo geo origin gate lat lon pool = none ↔
        ∀ r ∈ pool, ¬ radarAccept geo origin gate lat lon r := by
  intro pool
  induction pool with
  | nil => simp [findMatchingRadarGo]
  | cons c rest ih =>
      rw [findMatchingRadarGo]
      by_cases hd0 : geo.haversine_distance lat lon
          (geo.radar_to_geo c.distance_nm c.bearing_deg origin.2 origin.1).1
          (geo.radar_to_geo c.distance_nm c.bearing_deg origin.2 origin.1).2 < gate
      · have hd : radarAccept geo origin gate lat lon c := hd0
        rw [if_pos hd0]
        constructor
        · intro h; exact absurd h (by simp)
        · intro h; exact absurd hd (h c (List.mem_cons_self c rest))
      · have hd : ¬ radarAccept geo origin gate lat lon c := hd0
        rw [if_neg hd0, ih]
        constructor
        · intro h a ha
          rcases List.mem_cons.mp ha with h1 | h2
          · rw [h1]; exact hd
          · exact h a h2
        · intro h a ha; exact h a (List.mem_cons_of_mem _ ha)

theorem findMatchingAIS_accepts {geo : Geo} {s : FusionState} {lat lon : ℚ} {a : AISTarget}
    (h : findMatchingAIS geo s lat lon = some a) :
    aisAccept geo s.matched_ais s.association_distance lat lon a := by
  rw [findMatchingAIS, findMatchingAISGo_eq_some_iff] at h
  obtain ⟨-, -, -, hacc, -⟩ := h
  exact hacc

theorem findMatchingRadar_accepts {geo : Geo} {s : FusionState} {lat lon : ℚ} {r : RadarTarget}
    (h : findMatchingRadar geo s lat lon = some r) :
    radarAccept geo s.radar_origin s.association_distance lat lon r := by
  rw [findMatchingRadar, findMatchingRadarGo_eq_some_iff] at h
  obtain ⟨-, -, -, hacc, -⟩ := h
  exact hacc

/-! ## Shape invariant of the live track map -/

theorem tracksWF_upsert {l : List (String × FusedTarget)} {k : String} {t : FusedTarget}
    (h : tracksWF l) (ht : trackWF k t) : tracksWF (upsert k t l) := by
  refine ⟨nodup_keys_upsert h.1, fun p hp => ?_⟩
  rcases mem_upsert hp with h1 | h2
  · rw [h1]; exact ht
  · exact h.2 p h2

theorem tracksWF_filter {l : List (String × FusedTarget)} {f : String × FusedTarget → Bool}
    (h : tracksWF l) : tracksWF (l.filter f) := by
  refine ⟨List.Nodup.sublist (List.Sublist.map Prod.fst (List.filter_sublist l)) h.1,
    fun p hp => h.2 p (List.mem_of_mem_filter hp)⟩

theorem tracksWF_fuseRadarTarget {geo : Geo} {now : ℚ} {s : FusionState} {rt : RadarTarget}
    (h : tracksWF s.fused_targets) : tracksWF (fuseRadarTarget geo now s rt).fused_targets := by
  cases hm : findMatchingAIS geo s
      (geo.radar_to_geo rt.distance_nm rt.bearing_deg s.radar_origin.2 s.radar_origin.1).1
      (geo.radar_to_geo rt.distance_nm rt.bearing_deg s.radar_origin.2 s.radar_origin.1).2 with
  | none =>
      simp only [fuseRadarTarget, hm]
      exact tracksWF_upsert h (Or.inr (Or.inr ⟨rfl, rfl, rfl, rt, rfl, rfl⟩))
  | some matched =>
      simp only [fuseRadarTarget, hm]
      exact tracksWF_upsert h (Or.inl ⟨rfl, rfl, rt, matched, rfl, rfl, rfl⟩)

theorem tracksWF_addRadarTarget {geo : Geo} {now : ℚ} {s : FusionState} {rt : RadarTarget}
    (h : tracksWF s.fused_targets) : tracksWF (addRadarTarget geo now s rt).fused_targets :=
  @tracksWF_fuseRadarTarget geo now
    { s with radar_targets := upsert rt.target_id rt s.radar_targets } rt h

theorem tracksWF_fuseAisOnly {geo : Geo} {now : ℚ} {s : FusionState} {at_ : AISTarget}
    (h : tracksWF s.fused_targets) : tracksWF (fuseAisOnly geo now s at_).fused_targets := by
  cases hm : findMatchingRadar geo s at_.lat at_.lon with
  | none =>
      simp only [fuseAisOnly, hm]
      exact tracksWF_upsert h (Or.inr (Or.inl ⟨rfl, rfl, rfl, at_, rfl, rfl⟩))
  | some matched =>
      simp only [fuseAisOnly, hm]
      exact h

theorem tracksWF_addAisTarget {geo : Geo} {now : ℚ} {s : FusionState} {at_ : AISTarget}
    (h : tracksWF s.fused_targets) : tracksWF (addAisTarget geo now s at_).fused_targets := by
  cases hm : findMatchingRadar geo
      { s with ais_targets := upsert at_.mmsi at_ s.ais_targets } at_.lat at_.lon with
  | none =>
      simp only [addAisTarget, hm]
      exact @tracksWF_fuseAisOnly geo now
        { s with ais_targets := upsert at_.mmsi at_ s.ais_targets } at_ h
  | some matched =>
      simp only [addAisTarget, hm]
      exact tracksWF_upsert h (Or.inl ⟨rfl, rfl, matched, at_, rfl, rfl, rfl⟩)

theorem tracksWF_step {geo : Geo} {s s' : FusionState} (h : tracksWF s.fused_targets)
    (hs : Step geo s s') : tracksWF s'.fused_targets := by
  cases hs with
  | addRadar t now => exact tracksWF_addRadarTarget h
  | addAis t now => exact tracksWF_addAisTarget h
  | getFused now => exact tracksWF_filter h
  | setOrigin lon lat => exact h

theorem tracksWF_reachable {geo : Geo} {s s' : FusionState} (h : tracksWF s.fused_targets)
    (hr : Reachable geo s s') : tracksWF s'.fused_targets := by
  induction hr with
  | refl => exact h
  | tail _ hstep ih => exact tracksWF_step ih hstep

theorem tracksWF_initState (association_distance max_age : ℚ) :
    tracksWF (initState association_distance max_age).fused_targets :=
  ⟨List.nodup_nil, fun p hp => absurd hp (List.not_mem_nil p)⟩

/-! ## Monotonicity of the matched-AIS set and key preservation -/

theorem subset_addMatched {m : String} {l : List String} : l ⊆ addMatched m l := by
  unfold addMatched
  by_cases hm : m ∈ l
  · rw [if_pos hm]; exact fun x hx => hx
  · rw [if_neg hm]
    exact List.subset_append_left l [m]

theorem matched_subset_step {geo : Geo} {s s' : FusionState} (hs : Step geo s s') :
    s.matched_ais ⊆ s'.matched_ais := by
  cases hs with
  | addRadar t now =>
      show s.matched_ais ⊆ (fuseRadarTarget geo now _ t).matched_ais
      cases hm : findMatchingAIS geo { s with radar_targets := upsert t.target_id t s.radar_targets }
          (geo.radar_to_geo t.distance_nm t.bearing_deg s.radar_origin.2 s.radar_origin.1).1
          (geo.radar_to_geo t.distance_nm t.bearing_deg s.radar_origin.2 s.radar_origin.1).2 with
      | none => simp only [fuseRadarTarget, hm]; exact fun x hx => hx
      | some matched => simp only [fuseRadarTarget, hm]; exact subset_addMatched
  | addAis t now =>
      cases hm : findMatchingRadar geo
          { s with ais_targets := upsert t.mmsi t s.ais_targets } t.lat t.lon with
      | none =>
          simp only [addAisTarget, hm]
          cases hm2 : findMatchingRadar geo
              { s with ais_targets := upsert t.mmsi t s.ais_targets } t.lat t.lon with
          | none => simp only [fuseAisOnly, hm2]; exact fun x hx => hx
          | some r => simp only [fuseAisOnly, hm2]; exact fun x hx => hx
      | some matched => simp only [addAisTarget, hm]; exact subset_addMatched
  | getFused now => exact fun x hx => hx
  | setOrigin lon lat => exact fun x hx => hx

theorem matched_subset_reachable {geo : Geo} {s s' : FusionState}
    (hr : Reachable geo s s') : s.matched_ais ⊆ s'.matched_ais := by
  induction hr with
  | refl => exact fun x hx => hx
  | tail _ hstep ih => exact fun x hx => matched_subset_step hstep (ih hx)

theorem keys_fuseRadarTarget_superset {geo : Geo} {now : ℚ} {s : FusionState}
    {rt : RadarTarget} {k : String} (h : k ∈ s.fused_targets.map Prod.fst) :
    k ∈ (fuseRadarTarget geo now s rt).fused_targets.map Prod.fst := by
  cases hm : findMatchingAIS geo s
      (geo.radar_to_geo rt.distance_nm rt.bearing_deg s.radar_origin.2 s.radar_origin.1).1
      (geo.radar_to_geo rt.distance_nm rt.bearing_deg s.radar_origin.2 s.radar_origin.1).2 with
  | none => simp only [fuseRadarTarget, hm]; exact keys_upsert_superset h
  | some matched => simp only [fuseRadarTarget, hm]; exact keys_upsert_superset h

theorem keys_addRadarTarget_superset {geo : Geo} {now : ℚ} {s : FusionState}
    {rt : RadarTarget} {k : String} (h : k ∈ s.fused_targets.map Prod.fst) :
    k ∈ (addRadarTarget geo now s rt).fused_targets.map Prod.fst :=
  @keys_fuseRadarTarget_superset geo now
    { s with radar_targets := upsert rt.target_id rt s.radar_targets } rt k h

theorem keys_addAisTarget_superset {geo : Geo} {now : ℚ} {s : FusionState}
    {at_ : AISTarget} {k : String} (h : k ∈ s.fused_targets.map Prod.fst) :
    k ∈ (addAisTarget geo now s at_).fused_targets.map Prod.fst := by
  cases hm : findMatchingRadar geo
      { s with ais_targets := upsert at_.mmsi at_ s.ais_targets } at_.lat at_.lon with
  | none =>
      simp only [addAisTarget, hm]
      cases hm2 : findMatchingRadar geo
          { s with ais_targets := upsert at_.mmsi at_ s.ais_targets } at_.lat at_.lon with
      | none => simp only [fuseAisOnly, hm2]; exact keys_upsert_superset h
      | some r => simp only [fuseAisOnly, hm2]; exact h
  | some matched => simp only [addAisTarget, hm]; exact keys_upsert_superset h

/-! ## Further helper lemmas -/

theorem filter_ne_of_lookup_none {V : Type} {tid : String} :
    ∀ {l : List (String × V)}, lookupKey tid l = none →
      l.filter (fun p => p.1 ≠ tid) = l := by
  intro l
  induction l with
  | nil => intro _; rfl
  | cons q rest ih =>
      intro h
      rw [lookupKey] at h
      by_cases hk : q.1 = tid
      · rw [if_pos hk] at h; cases h
      · rw [if_neg hk] at h
        rw [List.filter_cons, if_pos (by simp [hk]), ih h]

/-! ## Claim C6 -/

/-- C6: a candidate whose distance to the query point equals the gating
distance exactly is rejected by both association searches — any returned
candidate lies strictly below the gate (strict less-than, never
less-than-or-equal). -/
theorem gate_boundary_strict_lt (geo : Geo) (s : FusionState) (lat lon : ℚ) :
    (∀ a : AISTarget, findMatchingAIS geo s lat lon = some a →
        geo.haversine_distance lat lon a.lat a.lon < s.association_distance) ∧
    (∀ a : AISTarget, geo.haversine_distance lat lon a.lat a.lon = s.association_distance →
        findMatchingAIS geo s lat lon ≠ some a) ∧
    (∀ r : RadarTarget, findMatchingRadar geo s lat lon = some r →
        geo.haversine_distance lat lon
            (geo.radar_to_geo r.distance_nm r.bearing_deg s.radar_origin.2 s.radar_origin.1).1
            (geo.radar_to_geo r.distance_nm r.bearing_deg s.radar_origin.2 s.radar_origin.1).2 <
          s.association_distance) ∧
    (∀ r : RadarTarget, geo.haversine_distance lat lon
            (geo.radar_to_geo r.distance_nm r.bearing_deg s.radar_origin.2 s.radar_origin.1).1
            (geo.radar_to_geo r.distance_nm r.bearing_deg s.radar_origin.2 s.radar_origin.1).2 =
          s.association_distance →
        findMatchingRadar geo s lat lon ≠ some r) := by
  refine ⟨fun a ha => (findMatchingAIS_accepts ha).2, fun a heq hsome => ?_,
    fun r hr => findMatchingRadar_accepts hr, fun r heq hsome => ?_⟩
  · have := (findMatchingAIS_accepts hsome).2
    rw [heq] at this
    exact lt_irrefl _ this
  · have := findMatchingRadar_accepts hsome
    rw [radarAccept, heq] at this
    exact lt_irrefl _ this

/-- Witness for C6: the pool `sGate` holds a single candidate exactly at
the gate distance (100), and the search rejects it. -/
theorem gate_boundary_strict_lt_witness :
    findMatchingAIS geoEx sGate 0 0 ≠ some aisGate :=
  (gate_boundary_strict_lt geoEx sGate 0 0).2.1 aisGate (by decide)

/-! ## Claim C7 -/

/-- C7: an `update` (resp. `process`) call on a not-yet-initialized
estimator initializes the state to the measured position with zero
velocity and returns the raw measurement unchanged. -/
theorem first_update_returns_measurement :
    (∀ (kf : KalmanFilter) (x y : ℚ), kf.initialized = false →
       (kf.update x y).1 = (x, y) ∧ (kf.update x y).2.state = ![x, y, 0, 0] ∧
       (kf.update x y).2.initialized = true) ∧
    (∀ (tr : KFTracker) (x y : ℚ), tr.init = false →
       (tr.process x y).1 = (x, y) ∧ (tr.process x y).2.x = ![x, y, 0, 0] ∧
       (tr.process x y).2.init = true) := by
  constructor
  · intro kf x y h
    simp [KalmanFilter.update, KalmanFilter.initializeState, h]
  · intro tr x y h
    simp [KFTracker.process, h]

/-- Witness for C7: fresh estimators return the first measurement (3, 4)
unchanged. -/
theorem first_update_returns_measurement_witness :
    ((KalmanFilter.init 1 (1/10) 1).update 3 4).1 = (3, 4) ∧
    ((KFTracker.mkTracker 1 (1/10) 1).process 3 4).1 = (3, 4) :=
  ⟨(first_update_returns_measurement.1 (KalmanFilter.init 1 (1/10) 1) 3 4 rfl).1,
   (first_update_returns_measurement.2 (KFTracker.mkTracker 1 (1/10) 1) 3 4 rfl).1⟩

/-! ## Claim C8 -/

/-- C8: `predict_target` on an unknown identity returns `none` and leaves
the registry unchanged (no estimator is created and nothing is raised),
and `remove_target` on an unknown identity is a no-op. -/
theorem absent_identity_noop :
    (∀ (m : MultiTargetKalmanFilter) (tid : String), lookupKey tid m.filters = none →
       m.predictTarget tid = (none, m)) ∧
    (∀ (m : MultiTargetKalmanFilter) (tid : String), lookupKey tid m.filters = none →
       m.removeTarget tid = m) := by
  constructor
  · intro m tid h
    unfold MultiTargetKalmanFilter.predictTarget
    rw [h]
  · intro m tid h
    cases m with
    | mk fl =>
        unfold MultiTargetKalmanFilter.removeTarget
        exact congrArg MultiTargetKalmanFilter.mk (filter_ne_of_lookup_none h)

/-- Witness for C8: the empty registry queried for identity "T1". -/
theorem absent_identity_noop_witness :
    MultiTargetKalmanFilter.predictTarget ⟨[]⟩ "T1" = (none, ⟨[]⟩) ∧
    MultiTargetKalmanFilter.removeTarget ⟨[]⟩ "T1" = ⟨[]⟩ :=
  ⟨absent_identity_noop.1 ⟨[]⟩ "T1" rfl, absent_identity_noop.2 ⟨[]⟩ "T1" rfl⟩

/-! ## Claim C10 -/

/-- C10: the matched-AIS set only grows — once an MMSI is in
`matched_ais`, it is still there after any sequence of `TargetFusion`
operations, and the AIS-side association search of any such later state
never returns a candidate with that MMSI. -/
theorem matched_ais_persistent (geo : Geo) (s s' : FusionState) (m : String)
    (hr : Reachable geo s s') (hm : m ∈ s.matched_ais) :
    m ∈ s'.matched_ais ∧
    ∀ lat lon a, findMatchingAIS geo s' lat lon = some a → a.mmsi ≠ m := by
  have h1 := matched_subset_reachable hr hm
  exact ⟨h1, fun lat lon a ha he => (findMatchingAIS_accepts ha).1 (he ▸ h1)⟩

/-- Witness for C10: MMSI "200100001" is matched in `sMatched` and stays
matched across a further `add_radar_target` call. -/
theorem matched_ais_persistent_witness :
    "200100001" ∈ (addRadarTarget geoEx 2 sMatched radarEx).matched_ais :=
  (matched_ais_persistent geoEx sMatched (addRadarTarget geoEx 2 sMatched radarEx) "200100001"
    (Reachable.tail (Reachable.refl sMatched) (Step.addRadar sMatched radarEx 2))
    (by decide)).1

/-! ## Classification and confidence lemmas -/

theorem stamp_source_type (t : FusedTarget) (now : ℚ) :
    (t.stamp now).source_type = t.source_type := rfl

theorem stamp_confidence (t : FusedTarget) (now : ℚ) :
    (t.stamp now).confidence = t.confidence := rfl

theorem stamp_radar_target (t : FusedTarget) (now : ℚ) :
    (t.stamp now).radar_target = t.radar_target := rfl

theorem stamp_ais_target (t : FusedTarget) (now : ℚ) :
    (t.stamp now).ais_target = t.ais_target := rfl

theorem classify_spec (t : FusedTarget) :
    (t.classify.source_type = "fused" ↔
       t.classify.radar_target.isSome ∧ t.classify.ais_target.isSome) ∧
    (t.classify.source_type = "fused" → t.classify.confidence = 9/10) ∧
    (t.classify.source_type = "ais" → t.classify.confidence = 8/10) ∧
    (t.classify.source_type = "radar" → t.classify.confidence = 7/10) := by
  unfold FusedTarget.classify
  by_cases h1 : t.radar_target.isSome ∧ t.ais_target.isSome
  · rw [if_pos h1]
    exact ⟨⟨fun _ => h1, fun _ => rfl⟩, fun _ => rfl,
      fun hs => absurd (show ("fused" : String) = "ais" from hs) (by decide),
      fun hs => absurd (show ("fused" : String) = "radar" from hs) (by decide)⟩
  · rw [if_neg h1]
    by_cases h2 : t.ais_target.isSome
    · rw [if_pos h2]
      exact ⟨⟨fun hs => absurd (show ("ais" : String) = "fused" from hs) (by decide),
          fun hb => absurd hb h1⟩,
        fun hs => absurd (show ("ais" : String) = "fused" from hs) (by decide), fun _ => rfl,
        fun hs => absurd (show ("ais" : String) = "radar" from hs) (by decide)⟩
    · rw [if_neg h2]
      exact ⟨⟨fun hs => absurd (show ("radar" : String) = "fused" from hs) (by decide),
          fun hb => absurd hb h1⟩,
        fun hs => absurd (show ("radar" : String) = "fused" from hs) (by decide),
        fun hs => absurd (show ("radar" : String) = "ais" from hs) (by decide), fun _ => rfl⟩

theorem update_spec (t : FusedTarget) (r : Option RadarTarget) (a : Option AISTarget) (now : ℚ) :
    ((t.update r a now).source_type = "fused" ↔
       (t.update r a now).radar_target.isSome ∧ (t.update r a now).ais_target.isSome) ∧
    ((t.update r a now).source_type = "fused" → (t.update r a now).confidence = 9/10) ∧
    ((t.update r a now).source_type = "ais" → (t.update r a now).confidence = 8/10) ∧
    ((t.update r a now).source_type = "radar" → (t.update r a now).confidence = 7/10) := by
  unfold FusedTarget.update
  rw [stamp_source_type, stamp_confidence, stamp_radar_target, stamp_ais_target]
  exact classify_spec ((t.applyRadar r).applyAis a)

theorem trackWF_classification {k : String} {t : FusedTarget} (h : trackWF k t) :
    (t.source_type = "fused" ↔ t.radar_target.isSome ∧ t.ais_target.isSome) ∧
    (t.source_type = "fused" → t.confidence = 9/10) ∧
    (t.source_type = "ais" → t.confidence = 8/10) ∧
    (t.source_type = "radar" → t.confidence = 7/10) := by
  rcases h with ⟨hs, hc, r, a, hrt, hat, -⟩ | ⟨hs, hc, hrt, a, hat, -⟩ | ⟨hs, hc, hat, r, hrt, -⟩
  · refine ⟨⟨fun _ => ⟨by rw [hrt]; rfl, by rw [hat]; rfl⟩, fun _ => hs⟩, fun _ => hc,
      fun h2 => ?_, fun h2 => ?_⟩
    · rw [hs] at h2; exact absurd h2 (by decide)
    · rw [hs] at h2; exact absurd h2 (by decide)
  · refine ⟨⟨fun h2 => by rw [hs] at h2; exact absurd h2 (by decide),
      fun hb => ?_⟩, fun h2 => by rw [hs] at h2; exact absurd h2 (by decide), fun _ => hc,
      fun h2 => by rw [hs] at h2; exact absurd h2 (by decide)⟩
    · rw [hrt] at hb
      simpa using hb.1
  · refine ⟨⟨fun h2 => by rw [hs] at h2; exact absurd h2 (by decide),
      fun hb => ?_⟩, fun h2 => by rw [hs] at h2; exact absurd h2 (by decide),
      fun h2 => by rw [hs] at h2; exact absurd h2 (by decide), fun _ => hc⟩
    · rw [hat] at hb
      simpa using hb.2

/-! ## Claim C4 -/

/-- C4: every track stored by the fusion engine (in any state reachable
from a fresh `TargetFusion`), and every track re-derived by
`FusedTarget.update`, is classified `fused` exactly when both contact
references are present, and the confidence weights are 0.9 for `fused`,
0.8 for `ais`-only and 0.7 for `radar`-only, which satisfy
0.9 > 0.8 > 0.7. -/
theorem fused_iff_both_refs_and_confidence (geo : Geo) (gate max_age : ℚ) (s : FusionState)
    (hr : Reachable geo (initState gate max_age) s) :
    (∀ p ∈ s.fused_targets,
       (p.2.source_type = "fused" ↔ p.2.radar_target.isSome ∧ p.2.ais_target.isSome) ∧
       (p.2.source_type = "fused" → p.2.confidence = 9/10) ∧
       (p.2.source_type = "ais" → p.2.confidence = 8/10) ∧
       (p.2.source_type = "radar" → p.2.confidence = 7/10)) ∧
    (∀ (t : FusedTarget) (r : Option RadarTarget) (a : Option AISTarget) (now : ℚ),
       ((t.update r a now).source_type = "fused" ↔
          (t.update r a now).radar_target.isSome ∧ (t.update r a now).ais_target.isSome) ∧
       ((t.update r a now).source_type = "fused" → (t.update r a now).confidence = 9/10) ∧
       ((t.update r a now).source_type = "ais" → (t.update r a now).confidence = 8/10) ∧
       ((t.update r a now).source_type = "radar" → (t.update r a now).confidence = 7/10)) ∧
    ((8:ℚ)/10 < 9/10 ∧ (7:ℚ)/10 < 8/10) := by
  have hwf := tracksWF_reachable (tracksWF_initState gate max_age) hr
  exact ⟨fun p hp => trackWF_classification (hwf.2 p hp),
    fun t r a now => update_spec t r a now, by norm_num, by norm_num⟩

/-- Witness for C4: in the concrete run `sAisThenRadar` (reachable from a
fresh engine) the stored AIS-only track carries confidence 0.8. -/
theorem fused_iff_both_refs_and_confidence_witness :
    trackA.confidence = 8/10 :=
  ((fused_iff_both_refs_and_confidence geoEx 100 60 sAisThenRadar
      (Reachable.tail
        (Reachable.tail (Reachable.refl (initState 100 60))
          (Step.addAis (initState 100 60) aisEx 0))
        (Step.addRadar (addAisTarget geoEx 0 (initState 100 60) aisEx) radarEx 1))).1
    ("A200100001", trackA) (List.mem_cons_self _ _)).2.2.1 rfl

/-! ## Claim C3 -/

/-- Counterexample to C3 as stated: after `add_ais_target` (no radar yet)
followed by `add_radar_target` with a matching radar contact, the live
track set holds two distinct tracks — `A200100001` and `F200100001` —
both referencing AIS identity 200100001, so an MMSI is not referenced by
at most one live track. -/
theorem mmsi_two_tracks_counterexample :
    sAisThenRadar.fused_targets.map (fun p => (p.1, p.2.ais_target.map AISTarget.mmsi)) =
      [("A200100001", some "200100001"), ("F200100001", some "200100001")] := by
  decide

/-- C3 (amended): in any state reachable from a fresh `TargetFusion`,
each AIS identity is referenced by at most one live track whose
classification is `fused` (the uniqueness claimed for arbitrary tracks
fails, see the counterexample: an `A<mmsi>` track may coexist with the
`F<mmsi>` track). -/
theorem mmsi_unique_among_fused (geo : Geo) (gate max_age : ℚ) (s : FusionState)
    (hr : Reachable geo (initState gate max_age) s) :
    ∀ p ∈ s.fused_targets, ∀ q ∈ s.fused_targets,
      p.2.source_type = "fused" → q.2.source_type = "fused" →
      ∀ ap aq, p.2.ais_target = some ap → q.2.ais_target = some aq →
        ap.mmsi = aq.mmsi → p = q := by
  have hwf := tracksWF_reachable (tracksWF_initState gate max_age) hr
  intro p hp q hq hps hqs ap aq hpa hqa hmm
  rcases hwf.2 p hp with ⟨-, -, r1, a1, -, ha1, hk1⟩ | ⟨hs, -⟩ | ⟨-, -, hnone, -⟩
  · rcases hwf.2 q hq with ⟨-, -, r2, a2, -, ha2, hk2⟩ | ⟨hs2, -⟩ | ⟨-, -, hnone2, -⟩
    · have e1 : a1 = ap := Option.some.inj (ha1.symm.trans hpa)
      have e2 : a2 = aq := Option.some.inj (ha2.symm.trans hqa)
      apply eq_of_mem_of_nodup_keys hwf.1 hp hq
      rw [hk1, hk2, e1, e2, hmm]
    · exact absurd (hqs.symm.trans hs2) (by decide)
    · rw [hnone2] at hqa; cases hqa
  · exact absurd (hps.symm.trans hs) (by decide)
  · rw [hnone] at hpa; cases hpa

/-- Witness for C3 (amended): in the run `sAisThenRadar` the unique
fused-classified track referencing MMSI 200100001 is `trackF`. -/
theorem mmsi_unique_among_fused_witness :
    ("F200100001", trackF) = ("F200100001", trackF) :=
  mmsi_unique_among_fused geoEx 100 60 sAisThenRadar
    (Reachable.tail
      (Reachable.tail (Reachable.refl (initState 100 60))
        (Step.addAis (initState 100 60) aisEx 0))
      (Step.addRadar (addAisTarget geoEx 0 (initState 100 60) aisEx) radarEx 1))
    ("F200100001", trackF) (List.mem_cons_of_mem _ (List.mem_cons_self _ _))
    ("F200100001", trackF) (List.mem_cons_of_mem _ (List.mem_cons_self _ _))
    rfl rfl aisEx aisEx rfl rfl rfl

/-! ## Claim C5 -/

/-- C5: `get_fused_targets` read at time `now` keeps a stored track (and
returns it) exactly when its age `now - timestamp` is at most `max_age`,
and deletes it exactly when the age strictly exceeds `max_age`; the
returned list is precisely the surviving tracks, nothing is added, and
the mutating operations `add_radar_target` / `add_ais_target` never drop
a stored key — eviction happens only at read time. -/
theorem age_eviction_at_read (geo : Geo) (s : FusionState) (now : ℚ) :
    ((getFusedTargets now s).1 = (getFusedTargets now s).2.fused_targets.map Prod.snd) ∧
    (∀ p ∈ s.fused_targets,
       (p ∈ (getFusedTargets now s).2.fused_targets ↔ now - p.2.timestamp ≤ s.max_age)) ∧
    (∀ p ∈ s.fused_targets, now - p.2.timestamp ≤ s.max_age →
       p.2 ∈ (getFusedTargets now s).1) ∧
    (∀ p ∈ (getFusedTargets now s).2.fused_targets, p ∈ s.fused_targets) ∧
    (∀ (t : RadarTarget) (now' : ℚ) (k : String), hasKey k s.fused_targets →
       hasKey k (addRadarTarget geo now' s t).fused_targets) ∧
    (∀ (a : AISTarget) (now' : ℚ) (k : String), hasKey k s.fused_targets →
       hasKey k (addAisTarget geo now' s a).fused_targets) := by
  refine ⟨rfl, fun p hp => ?_, fun p hp hle => ?_, fun p hp => ?_,
    fun t now' k hk => keys_addRadarTarget_superset hk,
    fun a now' k hk => keys_addAisTarget_superset hk⟩
  · show p ∈ s.fused_targets.filter _ ↔ _
    rw [List.mem_filter]
    constructor
    · rintro ⟨-, hc⟩
      have := of_decide_eq_true hc
      exact not_lt.mp this
    · intro h
      exact ⟨hp, decide_eq_true (not_lt.mpr h)⟩
  · show p.2 ∈ (s.fused_targets.filter _).map Prod.snd
    exact List.mem_map_of_mem Prod.snd
      (List.mem_filter.mpr ⟨hp, decide_eq_true (not_lt.mpr hle)⟩)
  · exact List.mem_of_mem_filter hp

/-- Witness for C5: the track stored in `sEvict` (age 1 against max age
60) survives a read at time 1. -/
theorem age_eviction_at_read_witness :
    ("R1", trackR) ∈ (getFusedTargets 1 sEvict).2.fused_targets :=
  ((age_eviction_at_read geoEx sEvict 1).2.1 ("R1", trackR)
    (List.mem_cons_self _ _)).mpr (by norm_num [trackR, sEvict, initState])

/-! ## Claim C1 -/

/-- Counterexample to C1 as stated: with two unmatched candidates both
inside the gate, `_find_matching_ais` returns the first one in pool
order (`aisFar`, at distance 50) even though `aisNear` (at distance 10)
is strictly nearer — the scan does not return the candidate of minimal
distance. -/
theorem nearest_match_counterexample :
    findMatchingAIS geoEx sPool 0 0 = some aisFar ∧
    aisNear ∈ sPool.ais_targets.map Prod.snd ∧
    aisNear.mmsi ∉ sPool.matched_ais ∧
    geoEx.haversine_distance 0 0 aisNear.lat aisNear.lon <
      geoEx.haversine_distance 0 0 aisFar.lat aisFar.lon ∧
    geoEx.haversine_distance 0 0 aisFar.lat aisFar.lon < sPool.association_distance := by
  decide

/-- C1 (amended): the association search is greedy first-match, not
nearest-match — it returns `some a` exactly when `a` is the first
candidate in pool insertion order that is unmatched (AIS side only) and
strictly within the gate, and reports no-match exactly when no candidate
qualifies.  (The returned candidate need not minimise the distance; see
the counterexample.) -/
theorem find_matching_first_in_gate (geo : Geo) (s : FusionState) (lat lon : ℚ) :
    (∀ a : AISTarget, findMatchingAIS geo s lat lon = some a ↔
       ∃ l1 l2, s.ais_targets.map Prod.snd = l1 ++ a :: l2 ∧
         aisAccept geo s.matched_ais s.association_distance lat lon a ∧
         ∀ b ∈ l1, ¬ aisAccept geo s.matched_ais s.association_distance lat lon b) ∧
    (findMatchingAIS geo s lat lon = none ↔
       ∀ a ∈ s.ais_targets.map Prod.snd,
         ¬ aisAccept geo s.matched_ais s.association_distance lat lon a) ∧
    (∀ r : RadarTarget, findMatchingRadar geo s lat lon = some r ↔
       ∃ l1 l2, s.radar_targets.map Prod.snd = l1 ++ r :: l2 ∧
         radarAccept geo s.radar_origin s.association_distance lat lon r ∧
         ∀ b ∈ l1, ¬ radarAccept geo s.radar_origin s.association_distance lat lon b) ∧
    (findMatchingRadar geo s lat lon = none ↔
       ∀ r ∈ s.radar_targets.map Prod.snd,
         ¬ radarAccept geo s.radar_origin s.association_distance lat lon r) :=
  ⟨fun _ => findMatchingAISGo_eq_some_iff, findMatchingAISGo_eq_none_iff,
   fun _ => findMatchingRadarGo_eq_some_iff, findMatchingRadarGo_eq_none_iff⟩

/-- Witness for C1 (amended): in the pool `sPool` the first in-gate
candidate is `aisFar`, and the characterization produces exactly it. -/
theorem find_matching_first_in_gate_witness :
    findMatchingAIS geoEx sPool 0 0 = some aisFar :=
  ((find_matching_first_in_gate geoEx sPool 0 0).1 aisFar).mpr
    ⟨[], [aisNear], by decide, by decide, by decide⟩

/-! ## Claim C9 -/

/-- Counterexample to C9 as stated: a configuration with a negative gate
distance and a zero measurement-noise floor passes
`ConfigValidator._validate_fusion` with no errors, and
`KalmanFilter.__init__` accepts the zero noise value, storing `R = 0` —
construction does not fail fast on invalid configuration. -/
theorem invalid_config_accepted_counterexample :
    validateFusion cfgBad = ([], []) ∧
    cfgBad.association_distance_m < 0 ∧
    cfgBad.measurement_noise = 0 ∧
    (KalmanFilter.init 1 (1/10) cfgBad.measurement_noise).measurement_noise = 0 ∧
    (KalmanFilter.init 1 (1/10) cfgBad.measurement_noise).R = 0 := by
  refine ⟨rfl, by decide, rfl, rfl, ?_⟩
  show cfgBad.measurement_noise • (1 : Matrix (Fin 2) (Fin 2) ℚ) = 0
  rw [show cfgBad.measurement_noise = 0 from rfl, zero_smul]

/-- C9 (amended): construction performs no validation at all —
`KalmanFilter.__init__` stores whatever noise values it is given
(including non-positive ones) and `_validate_fusion` never reports an
error for any fusion configuration (it only warns on unrecognized
tracker names; numeric fields are not inspected). -/
theorem construction_accepts_any_config :
    (∀ dt process_noise measurement_noise : ℚ,
       (KalmanFilter.init dt process_noise measurement_noise).dt = dt ∧
       (KalmanFilter.init dt process_noise measurement_noise).process_noise = process_noise ∧
       (KalmanFilter.init dt process_noise measurement_noise).measurement_noise =
         measurement_noise ∧
       (KalmanFilter.init dt process_noise measurement_noise).initialized = false) ∧
    (∀ cfg : FusionCfg, (validateFusion cfg).1 = []) := by
  refine ⟨fun dt pn mn => ⟨rfl, rfl, rfl, rfl⟩, fun cfg => ?_⟩
  unfold validateFusion
  by_cases h : cfg.tracker ∈ ["KF", "EKF", "UKF", "PF"]
  · rw [if_pos h]
  · rw [if_neg h]

/-! ## Upsert membership and key-prefix lemmas -/

theorem self_mem_upsert {V : Type} {k : String} {v : V} :
    ∀ {l : List (String × V)}, (k, v) ∈ upsert k v l := by
  intro l
  induction l with
  | nil => exact List.mem_cons_self _ _
  | cons q rest ih =>
      rw [upsert]
      by_cases hk : q.1 = k
      · rw [if_pos hk]; exact List.mem_cons_self _ _
      · rw [if_neg hk]; exact List.mem_cons_of_mem _ ih

theorem mem_upsert_of_mem {V : Type} {p : String × V} {k : String} {v : V} :
    ∀ {l : List (String × V)}, p ∈ l → p.1 ≠ k → p ∈ upsert k v l := by
  intro l
  induction l with
  | nil => intro h; exact absurd h (List.not_mem_nil p)
  | cons q rest ih =>
      intro h hne
      rw [upsert]
      by_cases hk : q.1 = k
      · rw [if_pos hk]
        rcases List.mem_cons.mp h with h1 | h2
        · exact absurd (h1 ▸ hk) hne
        · exact List.mem_cons_of_mem _ h2
      · rw [if_neg hk]
        rcases List.mem_cons.mp h with h1 | h2
        · exact h1 ▸ List.mem_cons_self _ _
        · exact List.mem_cons_of_mem _ (ih h2 hne)

theorem R_append_ne_F (x y : String) : "R" ++ x ≠ "F" ++ y := by
  intro h
  have hd : 'R' :: x.data = 'F' :: y.data := congrArg String.data h
  injection hd with h1 h2
  exact absurd h1 (by decide)

theorem A_append_ne_F (x y : String) : "A" ++ x ≠ "F" ++ y := by
  intro h
  have hd : 'A' :: x.data = 'F' :: y.data := congrArg String.data h
  injection hd with h1 h2
  exact absurd h1 (by decide)

/-! ## The fused-track map after a matching ingestion -/

theorem addAisTarget_fused_of_match {geo : Geo} {now : ℚ} {s : FusionState} {a : AISTarget}
    {matched_radar : RadarTarget}
    (h : findMatchingRadar geo { s with ais_targets := upsert a.mmsi a s.ais_targets }
        a.lat a.lon = some matched_radar) :
    ∃ t, (addAisTarget geo now s a).fused_targets =
        upsert ("F" ++ a.mmsi) t s.fused_targets ∧
      t.source_type = "fused" ∧ t.radar_target = some matched_radar ∧
      t.ais_target = some a := by
  simp only [addAisTarget, h]
  exact ⟨_, rfl, rfl, rfl, rfl⟩

theorem addRadarTarget_fused_of_match {geo : Geo} {now : ℚ} {s : FusionState}
    {rt : RadarTarget} {matched : AISTarget}
    (h : findMatchingAIS geo { s with radar_targets := upsert rt.target_id rt s.radar_targets }
        (geo.radar_to_geo rt.distance_nm rt.bearing_deg s.radar_origin.2 s.radar_origin.1).1
        (geo.radar_to_geo rt.distance_nm rt.bearing_deg s.radar_origin.2 s.radar_origin.1).2 =
        some matched) :
    ∃ t, (addRadarTarget geo now s rt).fused_targets =
        upsert ("F" ++ matched.mmsi) t s.fused_targets ∧
      t.source_type = "fused" ∧ t.radar_target = some rt ∧ t.ais_target = some matched := by
  simp only [addRadarTarget, fuseRadarTarget, h]
  exact ⟨_, rfl, rfl, rfl, rfl⟩

/-! ## Claim C2 -/

/-- Counterexample to C2 as stated: processing the matching pair in the
two orders does not yield the same final live track set, and in the
radar-then-AIS order a separate `R1` track does remain next to
`F200100001` (in the AIS-then-radar order an `A200100001` track remains
instead). -/
theorem order_dependent_tracks_counterexample :
    sRadarThenAis.fused_targets.map Prod.fst = ["R1", "F200100001"] ∧
    sAisThenRadar.fused_targets.map Prod.fst = ["A200100001", "F200100001"] := by
  decide

/-- C2 (amended): processing a `RadarContact` and a matching `AISContact`
in either order yields a fused track with identity `F<mmsi>` carrying
both contact references; but the final live sets differ — the
radar-then-AIS order additionally retains the dangling radar-only track
`R<radar_id>`, and the AIS-then-radar order additionally retains the
AIS-only track `A<mmsi>`.  (The claim's assertions that both orders give
the same live set and that no `R<radar_id>` track remains are false; see
the counterexample.) -/
theorem order_invariance_amended (geo : Geo) (gate ma : ℚ) (r : RadarTarget) (a : AISTarget)
    (n1 n2 n3 n4 : ℚ)
    (hra : geo.haversine_distance
        (geo.radar_to_geo r.distance_nm r.bearing_deg 0 0).1
        (geo.radar_to_geo r.distance_nm r.bearing_deg 0 0).2 a.lat a.lon < gate)
    (har : geo.haversine_distance a.lat a.lon
        (geo.radar_to_geo r.distance_nm r.bearing_deg 0 0).1
        (geo.radar_to_geo r.distance_nm r.bearing_deg 0 0).2 < gate) :
    (∃ t, ("F" ++ a.mmsi, t) ∈
        (addAisTarget geo n2 (addRadarTarget geo n1 (initState gate ma) r) a).fused_targets ∧
        t.source_type = "fused" ∧ t.radar_target = some r ∧ t.ais_target = some a) ∧
    (∃ t, ("F" ++ a.mmsi, t) ∈
        (addRadarTarget geo n4 (addAisTarget geo n3 (initState gate ma) a) r).fused_targets ∧
        t.source_type = "fused" ∧ t.radar_target = some r ∧ t.ais_target = some a) ∧
    (∃ t, ("R" ++ r.target_id, t) ∈
        (addAisTarget geo n2 (addRadarTarget geo n1 (initState gate ma) r) a).fused_targets ∧
        t.source_type = "radar" ∧ t.ais_target = none) ∧
    (∃ t, ("A" ++ a.mmsi, t) ∈
        (addRadarTarget geo n4 (addAisTarget geo n3 (initState gate ma) a) r).fused_targets ∧
        t.source_type = "ais" ∧ t.radar_target = none) := by
  have hfr : findMatchingRadar geo
      { addRadarTarget geo n1 (initState gate ma) r with
        ais_targets := upsert a.mmsi a
          (addRadarTarget geo n1 (initState gate ma) r).ais_targets }
      a.lat a.lon = some r := by
    rw [findMatchingRadar, findMatchingRadarGo_eq_some_iff]
    exact ⟨[], [], rfl, har, by simp⟩
  have hfa : findMatchingAIS geo
      { addAisTarget geo n3 (initState gate ma) a with
        radar_targets := upsert r.target_id r
          (addAisTarget geo n3 (initState gate ma) a).radar_targets }
      (geo.radar_to_geo r.distance_nm r.bearing_deg
        (addAisTarget geo n3 (initState gate ma) a).radar_origin.2
        (addAisTarget geo n3 (initState gate ma) a).radar_origin.1).1
      (geo.radar_to_geo r.distance_nm r.bearing_deg
        (addAisTarget geo n3 (initState gate ma) a).radar_origin.2
        (addAisTarget geo n3 (initState gate ma) a).radar_origin.1).2 = some a := by
    rw [findMatchingAIS, findMatchingAISGo_eq_some_iff]
    exact ⟨[], [], rfl, ⟨List.not_mem_nil a.mmsi, hra⟩, by simp⟩
  obtain ⟨tF1, he1, hs1, hr1, ha1⟩ := @addAisTarget_fused_of_match geo n2 _ _ _ hfr
  obtain ⟨tF2, he2, hs2, hr2, ha2⟩ := @addRadarTarget_fused_of_match geo n4 _ _ _ hfa
  obtain ⟨tR1, hRmem, hRsrc, hRais⟩ :
      ∃ t, ("R" ++ r.target_id, t) ∈
          (addRadarTarget geo n1 (initState gate ma) r).fused_targets ∧
        t.source_type = "radar" ∧ t.ais_target = none :=
    ⟨_, List.mem_cons_self _ _, rfl, rfl⟩
  obtain ⟨tA1, hAmem, hAsrc, hArad⟩ :
      ∃ t, ("A" ++ a.mmsi, t) ∈
          (addAisTarget geo n3 (initState gate ma) a).fused_targets ∧
        t.source_type = "ais" ∧ t.radar_target = none :=
    ⟨_, List.mem_cons_self _ _, rfl, rfl⟩
  refine ⟨⟨tF1, ?_, hs1, hr1, ha1⟩, ⟨tF2, ?_, hs2, hr2, ha2⟩,
    ⟨tR1, ?_, hRsrc, hRais⟩, ⟨tA1, ?_, hAsrc, hArad⟩⟩
  · rw [he1]; exact self_mem_upsert
  · rw [he2]; exact self_mem_upsert
  · rw [he1]; exact mem_upsert_of_mem hRmem (R_append_ne_F r.target_id a.mmsi)
  · rw [he2]; exact mem_upsert_of_mem hAmem (A_append_ne_F a.mmsi a.mmsi)

/-- Witness for C2 (amended): in the concrete radar-then-AIS run a
dangling radar-only track `R1` remains in the live set. -/
theorem order_invariance_amended_witness :
    ∃ t, ("R1", t) ∈ sRadarThenAis.fused_targets ∧
      t.source_type = "radar" ∧ t.ais_target = none :=
  (order_invariance_amended geoEx 100 60 radarEx aisEx 0 1 0 1
    (by decide) (by decide)).2.2.1

end ZhoushanRadar
